import Mathlib

/-!
# Logger initialisation: `logr.NewLogger`

A shallow embedding of `logr/logr.go`.  `NewLogger` reads six environment
variables, resolves the logging settings, builds one zap logger and installs it
behind three process-wide front-ends (zap's global logger, klog, logrus).

* The environment is a function from variable names to optional values.
* The libraries the function calls (`os`, `zap`, `klog`, `flag`, `zaphook`) are
  not part of the package.  Their outcomes are the fields of `Collaborators`,
  so every theorem holds for every behaviour of the libraries unless a
  hypothesis says otherwise.
* The process-wide state touched by the function is the record `Globals`; the
  function is a state transformer on it.
* Go strings are byte strings; here they are Lean strings.  Only equality,
  concatenation and prefix removal are used.
-/

namespace logr

/-! ## Environment and strings -/

/-- The process environment: each variable is unset (`none`) or set to a value. -/
abbrev Env := String → Option String

/-- Model of `os.Getenv`: the value of the variable, the empty string when it is unset. -/
def Getenv (env : Env) (key : String) : String :=
  (env key).getD ""

/-- An environment given by a list of bindings, every other variable unset. -/
def envOf (bindings : List (String × String)) : Env :=
  fun key => bindings.lookup key

/-- Model of `strings.HasPrefix s pre`: whether `s` starts with `pre`. -/
def HasPrefix (s pre : String) : Bool :=
  pre.data.isPrefixOf s.data

/-- Model of `strings.TrimPrefix s pre`: `s` without the leading `pre`; `s` itself when
`s` does not start with `pre`. -/
def TrimPrefix (s pre : String) : String :=
  if HasPrefix s pre then String.mk (s.data.drop pre.data.length) else s

/-! ## The zap data the function handles -/

/-- Severity scale of zap (`zapcore.Level`). -/
inductive Level where
  | DebugLevel
  | InfoLevel
  | WarnLevel
  | ErrorLevel
  | DPanicLevel
  | PanicLevel
  | FatalLevel
  deriving DecidableEq, Repr

/-- Call-site of a log record (`zapcore.EntryCaller`). -/
structure EntryCaller where
  Defined : Bool
  File : String
  Line : Int
  deriving DecidableEq, Repr

/-- Model of `EntryCaller.FullPath`: `file:line`, or `undefined` without a call-site. -/
def EntryCaller.FullPath (caller : EntryCaller) : String :=
  if !caller.Defined then "undefined" else caller.File ++ ":" ++ toString caller.Line

/-- Model of `EntryCaller.String`, which is the full path of the caller. -/
def EntryCaller.String (caller : EntryCaller) : String :=
  caller.FullPath

/-- The caller formatters `NewLogger` can install in `EncoderConfig.EncodeCaller`:
zap's `ShortCallerEncoder`, or the closure of lines 71-73, which captures the
working-directory path. -/
inductive CallerEncoder where
  | ShortCallerEncoder
  | trimPath (path : String)
  deriving DecidableEq, Repr

/-- What the closure of lines 71-73 appends for a caller:
`strings.TrimPrefix(caller.String(), path)`. -/
def encodeFullCaller (path : String) (caller : EntryCaller) : String :=
  TrimPrefix caller.String path

/-- The level formatters of the presets (`EncoderConfig.EncodeLevel`). -/
inductive LevelEncoder where
  | LowercaseLevelEncoder
  | CapitalLevelEncoder
  | CapitalColorLevelEncoder
  deriving DecidableEq, Repr

/-- The part of `zap.Config` that `NewLogger` reads or writes. -/
structure Config where
  Development : Bool
  Encoding : String
  EncodeLevel : LevelEncoder
  EncodeCaller : CallerEncoder
  Level : Level
  deriving DecidableEq, Repr

/-- Preset `zap.NewProductionConfig()`. -/
def NewProductionConfig : Config :=
  { Development := false
    Encoding := "json"
    EncodeLevel := LevelEncoder.LowercaseLevelEncoder
    EncodeCaller := CallerEncoder.ShortCallerEncoder
    Level := Level.InfoLevel }

/-- Preset `zap.NewDevelopmentConfig()`. -/
def NewDevelopmentConfig : Config :=
  { Development := true
    Encoding := "console"
    EncodeLevel := LevelEncoder.CapitalLevelEncoder
    EncodeCaller := CallerEncoder.ShortCallerEncoder
    Level := Level.DebugLevel }

/-- A fixed string field attached to every record (`zap.String key value`). -/
structure Field where
  Key : String
  Value : String
  deriving DecidableEq, Repr

/-- A built zap logger: the configuration it was built from and its fixed fields. -/
structure ZapLogger where
  config : Config
  fields : List Field
  deriving DecidableEq, Repr

/-- Modelled from the spec: `zapr.NewLogger` (package `logr/zapr`, not among the
sources) wraps a logger instance into the generic leveled-logging facade; the
facade is the logger it wraps. -/
structure Logger where
  zapLog : ZapLogger
  deriving DecidableEq, Repr

/-! ## Collaborators and process-wide state -/

/-- Outcomes of the library calls made by `NewLogger`.  An error is the text of
the error value. -/
structure Collaborators where
  /-- Result of `os.Getwd()`: the directory and the error. -/
  Getwd : String × Option String
  /-- Level parser `zap.ParseAtomicLevel`. -/
  ParseAtomicLevel : String → Except String Level
  /-- The error of `config.Build(fields...)`, if it fails. -/
  BuildError : Config → List Field → Option String
  /-- Outcome of `klogFlagSet.Set("v", value)`: the verbosity stored, or the error. -/
  SetV : String → Except String Int
  /-- The error of `klogFlagSet.Parse([]string{})`, if it fails. -/
  ParseError : Option String
  /-- The error of `zaphook.NewZapHook(zapLog)`, if it fails. -/
  NewZapHookError : ZapLogger → Option String

/-- Destination of logrus' own output. -/
inductive Output where
  | Stderr
  | Discard
  deriving DecidableEq, Repr

/-- The process-wide state `NewLogger` writes to. -/
structure Globals where
  /-- The logger behind `zap.L()`; `none` is zap's initial no-op logger. -/
  zapGlobal : Option ZapLogger
  /-- The logger installed in klog; `none` after `klog.ClearLogger()`. -/
  klogLogger : Option Logger
  /-- The verbosity threshold of klog (the `v` flag). -/
  klogVerbosity : Int
  /-- Whether logrus reports the caller. -/
  logrusReportCaller : Bool
  /-- Where logrus writes. -/
  logrusOutput : Output
  /-- The hooks of logrus; a zap hook is given by the logger it forwards to. -/
  logrusHooks : List ZapLogger
  deriving DecidableEq, Repr

/-- The errors `NewLogger` returns, one per `return` with an error. -/
inductive Error where
  | invalidLogEncoding (encoding : String)
  | failedToBuildZapLogger (err : String)
  | failedToSetKlogVerbosityLevel (err : String)
  | failedToParseKlogFlags (err : String)
  | failedToCreateLogrusHook (err : String)
  deriving DecidableEq, Repr

/-- The text of the error, as formatted by `fmt.Errorf`. -/
def Error.message : Error → String
  | Error.invalidLogEncoding encoding => "invalid log encoding: " ++ encoding
  | Error.failedToBuildZapLogger err => "failed to build zap logger: " ++ err
  | Error.failedToSetKlogVerbosityLevel err => "failed to set klog verbosity level: " ++ err
  | Error.failedToParseKlogFlags err => "failed to parse klog flags: " ++ err
  | Error.failedToCreateLogrusHook err => "failed to create logrus hook: " ++ err

/-! ## Settings resolution (lines 20-56) -/

/-- Lines 20-21: the prefix removed from full caller paths.  The error of
`os.Getwd` is dropped and a separator is appended to the directory. -/
def workingDirectoryPath (c : Collaborators) : String :=
  c.Getwd.1 ++ "/"

/-- Lines 27-30: `LOFT_LOG_ENCODING`, `console` when empty. -/
def loftLogEncoding (env : Env) : String :=
  let loftLogEncoding := Getenv env "LOFT_LOG_ENCODING"
  if loftLogEncoding = "" then "console" else loftLogEncoding

/-- Lines 35-40: `LOFT_LOG_FULL_CALLER_PATH` with its default and override. -/
def logFullCallerPath (env : Env) : String :=
  let loftDebug := Getenv env "LOFTDEBUG"
  let logFullCallerPath := Getenv env "LOFT_LOG_FULL_CALLER_PATH"
  if logFullCallerPath = "" then "false"
  else if loftDebug = "true" then "true"
  else logFullCallerPath

/-- Lines 42-56: the level string and the verbosity string after the defaults
and the two cross-overrides, in the order of the source. -/
def levelSettings (env : Env) : String × String :=
  let logLevel := Getenv env "LOFT_LOG_LEVEL"
  let logLevel := if logLevel = "" then "warn" else logLevel
  let kubernetesVerbosityLevel := Getenv env "KUBERNETES_VERBOSITY_LEVEL"
  let kubernetesVerbosityLevel :=
    if kubernetesVerbosityLevel = "" then "0" else kubernetesVerbosityLevel
  let logLevel := if kubernetesVerbosityLevel ≠ "0" then "debug" else logLevel
  let kubernetesVerbosityLevel :=
    if logLevel = "debug" ∧ kubernetesVerbosityLevel = "0" then "1"
    else kubernetesVerbosityLevel
  (logLevel, kubernetesVerbosityLevel)

/-- The level string handed to `zap.ParseAtomicLevel` (line 79). -/
def logLevel (env : Env) : String :=
  (levelSettings env).1

/-- The verbosity string handed to the `v` flag of klog (line 102). -/
def kubernetesVerbosityLevel (env : Env) : String :=
  (levelSettings env).2

/-! ## Configuration (lines 58-83) -/

/-- Lines 79-82: the parsed level, `WarnLevel` when parsing fails. -/
def atomicLevel (c : Collaborators) (env : Env) : Level :=
  match c.ParseAtomicLevel (logLevel env) with
  | Except.ok level => level
  | Except.error _ => Level.WarnLevel

/-- Lines 58-83: the configuration handed to `Build`. -/
def newConfig (c : Collaborators) (env : Env) : Config :=
  let development := Getenv env "DEVELOPMENT"
  let loftDebug := Getenv env "LOFTDEBUG"
  let config := NewProductionConfig
  let config :=
    if development = "true" then
      { NewDevelopmentConfig with EncodeLevel := LevelEncoder.CapitalColorLevelEncoder }
    else config
  let config := { config with Encoding := loftLogEncoding env }
  let config :=
    if logFullCallerPath env = "true" ∨ loftDebug = "true" then
      { config with EncodeCaller := CallerEncoder.trimPath (workingDirectoryPath c) }
    else
      { config with EncodeCaller := CallerEncoder.ShortCallerEncoder }
  { config with Level := atomicLevel c env }

/-- Model of `config.Build(fields...)`: fails with the collaborator's error, otherwise
yields the logger of this configuration and these fields. -/
def Config.Build (c : Collaborators) (config : Config) (fields : List Field) :
    Except String ZapLogger :=
  match c.BuildError config fields with
  | some err => Except.error err
  | none => Except.ok { config := config, fields := fields }

/-! ## `NewLogger` -/

/-- Model of `NewLogger(component)`: the result and the process-wide state after the call. -/
def NewLogger (c : Collaborators) (env : Env) (component : String) (g : Globals) :
    Except Error Logger × Globals :=
  -- lines 27-33
  if loftLogEncoding env ≠ "json" ∧ loftLogEncoding env ≠ "console" then
    (Except.error (Error.invalidLogEncoding (loftLogEncoding env)), g)
  else
    -- lines 85-89
    match (newConfig c env).Build c [{ Key := "component", Value := component }] with
    | Except.error err => (Except.error (Error.failedToBuildZapLogger err), g)
    | Except.ok zapLog =>
      -- line 92
      let g := { g with zapGlobal := some zapLog }
      -- line 95
      let log : Logger := { zapLog := zapLog }
      -- line 98
      let g := { g with klogLogger := none }
      -- lines 100-104
      match c.SetV (kubernetesVerbosityLevel env) with
      | Except.error err => (Except.error (Error.failedToSetKlogVerbosityLevel err), g)
      | Except.ok v =>
        let g := { g with klogVerbosity := v }
        -- lines 105-107
        match c.ParseError with
        | some err => (Except.error (Error.failedToParseKlogFlags err), g)
        | none =>
          -- line 109
          let g := { g with klogLogger := some log }
          -- lines 112-113
          let g := { g with logrusReportCaller := true }
          let g := { g with logrusOutput := Output.Discard }
          -- lines 115-119
          match c.NewZapHookError zapLog with
          | some err => (Except.error (Error.failedToCreateLogrusHook err), g)
          | none =>
            let g := { g with logrusHooks := g.logrusHooks ++ [zapLog] }
            (Except.ok log, g)

/-! ## Reference behaviour of the libraries

The documented behaviour of the libraries, for evaluating `NewLogger` on
concrete inputs.  The general theorems do not depend on these definitions. -/

/-- Names read by `zapcore.Level.unmarshalText`: a level name in lower case or
in capitals; the empty text is `info`. -/
def unmarshalText (text : String) : Option Level :=
  if text = "debug" ∨ text = "DEBUG" then some Level.DebugLevel
  else if text = "info" ∨ text = "INFO" ∨ text = "" then some Level.InfoLevel
  else if text = "warn" ∨ text = "WARN" then some Level.WarnLevel
  else if text = "error" ∨ text = "ERROR" then some Level.ErrorLevel
  else if text = "dpanic" ∨ text = "DPANIC" then some Level.DPanicLevel
  else if text = "panic" ∨ text = "PANIC" then some Level.PanicLevel
  else if text = "fatal" ∨ text = "FATAL" then some Level.FatalLevel
  else none

/-- Reference `zap.ParseAtomicLevel` (through `Level.UnmarshalText`): the text is
read as it is and, failing that, with its ASCII letters in lower case. -/
def zapParseAtomicLevel (text : String) : Except String Level :=
  match unmarshalText text with
  | some level => Except.ok level
  | none =>
    match unmarshalText (String.mk (text.data.map Char.toLower)) with
    | some level => Except.ok level
    | none => Except.error ("unrecognized level: " ++ text)

/-- The number written by a non-empty list of decimal digits. -/
def parseDigits : List Char → Option Nat
  | [] => none
  | ds => if ds.all Char.isDigit then some (ds.foldl (fun n d => 10 * n + (d.toNat - 48)) 0) else none

/-- Reference `strconv.ParseInt(s, 10, 32)`: an optional sign and decimal
digits, within the range of a 32-bit integer. -/
def ParseInt (s : String) : Except String Int :=
  let signed : Bool × List Char :=
    match s.data with
    | '+' :: ds => (false, ds)
    | '-' :: ds => (true, ds)
    | ds => (false, ds)
  match parseDigits signed.2 with
  | none => Except.error "invalid syntax"
  | some n =>
    if signed.1 then
      if n ≤ 2 ^ 31 then Except.ok (-(n : Int)) else Except.error "value out of range"
    else
      if n < 2 ^ 31 then Except.ok (n : Int) else Except.error "value out of range"

/-- Reference libraries: the level parser of zap, the `v` flag of klog (its
`Level.Set` stores `strconv.ParseInt(value, 10, 32)`), and a build, a flag parse
and a hook creation that succeed. -/
def libraries (wd : String × Option String) : Collaborators :=
  { Getwd := wd
    ParseAtomicLevel := zapParseAtomicLevel
    BuildError := fun _ _ => none
    SetV := ParseInt
    ParseError := none
    NewZapHookError := fun _ => none }

/-- Process-wide state of a fresh process: no logger installed anywhere. -/
def initialGlobals : Globals :=
  { zapGlobal := none
    klogLogger := none
    klogVerbosity := 0
    logrusReportCaller := false
    logrusOutput := Output.Stderr
    logrusHooks := [] }

/-! ## Notions used by the statements -/

/-- A positive integer string: decimal digits, at least one, not all of them zero. -/
def isPositiveIntegerString (s : String) : Bool :=
  !s.data.isEmpty && s.data.all Char.isDigit && s.data.any (fun d => d != '0')

/-- Name of a level, as the level parser reads it. -/
def levelName : Level → String
  | Level.DebugLevel => "debug"
  | Level.InfoLevel => "info"
  | Level.WarnLevel => "warn"
  | Level.ErrorLevel => "error"
  | Level.DPanicLevel => "dpanic"
  | Level.PanicLevel => "panic"
  | Level.FatalLevel => "fatal"

/-- Contract of the level parser: each of the seven level names is read as its level. -/
def ParsesLevelNames (c : Collaborators) : Prop :=
  ∀ level : Level, c.ParseAtomicLevel (levelName level) = Except.ok level

/-- The logger `NewLogger` builds: configuration of lines 58-83, one field `component`. -/
def builtLogger (c : Collaborators) (env : Env) (component : String) : ZapLogger :=
  { config := newConfig c env, fields := [{ Key := "component", Value := component }] }

/-- The environment variables the function documents. -/
def documentedVariables : List String :=
  ["DEVELOPMENT", "LOFTDEBUG", "LOFT_LOG_ENCODING", "LOFT_LOG_FULL_CALLER_PATH",
    "LOFT_LOG_LEVEL", "KUBERNETES_VERBOSITY_LEVEL"]

/-- The environment `env` with the variable `key` unset. -/
def unsetenv (env : Env) (key : String) : Env :=
  fun k => if k = key then none else env k

/-- A logger installed by an earlier initialisation. -/
def earlierLogger : ZapLogger :=
  { config := NewProductionConfig, fields := [{ Key := "component", Value := "earlier" }] }

/-- Process-wide state of a process in which an earlier initialisation installed
`earlierLogger` everywhere, with verbosity 2. -/
def earlierGlobals : Globals :=
  { zapGlobal := some earlierLogger
    klogLogger := some { zapLog := earlierLogger }
    klogVerbosity := 2
    logrusReportCaller := true
    logrusOutput := Output.Discard
    logrusHooks := [earlierLogger] }

/-! ## General lemmas -/

theorem libraries_parsesLevelNames (wd : String × Option String) :
    ParsesLevelNames (libraries wd) := by
  intro level
  cases level <;> rfl

theorem newConfig_Level (c : Collaborators) (env : Env) :
    (newConfig c env).Level = atomicLevel c env := by
  simp only [newConfig]

theorem newConfig_Encoding (c : Collaborators) (env : Env) :
    (newConfig c env).Encoding = loftLogEncoding env := by
  simp only [newConfig]
  split <;> split <;> rfl

/-- A successful call returns the facade of the built logger, and every step before
the return has succeeded and left its mark on the process-wide state. -/
theorem NewLogger_ok (c : Collaborators) (env : Env) (component : String) (g g1 : Globals)
    (log : Logger) (h : NewLogger c env component g = (Except.ok log, g1)) :
    log.zapLog = builtLogger c env component ∧
    (loftLogEncoding env = "json" ∨ loftLogEncoding env = "console") ∧
    c.SetV (kubernetesVerbosityLevel env) = Except.ok g1.klogVerbosity ∧
    g1 = { zapGlobal := some (builtLogger c env component)
           klogLogger := some log
           klogVerbosity := g1.klogVerbosity
           logrusReportCaller := true
           logrusOutput := Output.Discard
           logrusHooks := g.logrusHooks ++ [builtLogger c env component] } := by
  unfold NewLogger at h
  split at h
  · simp at h
  · rename_i henc
    have henc1 : loftLogEncoding env = "json" ∨ loftLogEncoding env = "console" := by
      by_contra hcon
      exact henc ⟨fun hj => hcon (Or.inl hj), fun hc => hcon (Or.inr hc)⟩
    unfold Config.Build at h
    cases hb : c.BuildError (newConfig c env) [{ Key := "component", Value := component }] with
    | some err => simp [hb] at h
    | none =>
      simp only [hb] at h
      cases hv : c.SetV (kubernetesVerbosityLevel env) with
      | error err => simp [hv] at h
      | ok v =>
        simp only [hv] at h
        cases hp : c.ParseError with
        | some err => simp [hp] at h
        | none =>
          simp only [hp] at h
          cases hh : c.NewZapHookError
              { config := newConfig c env, fields := [{ Key := "component", Value := component }] } with
          | some err => simp [hh] at h
          | none =>
            simp only [hh, Prod.mk.injEq, Except.ok.injEq] at h
            obtain ⟨hlog, hg⟩ := h
            subst hlog
            subst hg
            exact ⟨rfl, henc1, rfl, rfl⟩

/-- With an invalid encoding the call returns at line 32: the error cites the
encoding, and neither a collaborator nor the process-wide state is touched. -/
theorem NewLogger_of_invalid_encoding (c : Collaborators) (env : Env) (component : String)
    (g : Globals) (h : loftLogEncoding env ≠ "json" ∧ loftLogEncoding env ≠ "console") :
    NewLogger c env component g =
      (Except.error (Error.invalidLogEncoding (loftLogEncoding env)), g) := by
  unfold NewLogger
  rw [if_pos h]

/-- With a valid encoding the call runs lines 85-121. -/
theorem NewLogger_of_valid_encoding (c : Collaborators) (env : Env) (component : String)
    (g : Globals) (h : ¬ (loftLogEncoding env ≠ "json" ∧ loftLogEncoding env ≠ "console")) :
    NewLogger c env component g =
      match c.BuildError (newConfig c env) [{ Key := "component", Value := component }] with
      | some err => (Except.error (Error.failedToBuildZapLogger err), g)
      | none =>
        match c.SetV (kubernetesVerbosityLevel env) with
        | Except.error err =>
          (Except.error (Error.failedToSetKlogVerbosityLevel err),
            { g with zapGlobal := some (builtLogger c env component), klogLogger := none })
        | Except.ok v =>
          match c.ParseError with
          | some err =>
            (Except.error (Error.failedToParseKlogFlags err),
              { g with zapGlobal := some (builtLogger c env component), klogLogger := none,
                       klogVerbosity := v })
          | none =>
            match c.NewZapHookError (builtLogger c env component) with
            | some err =>
              (Except.error (Error.failedToCreateLogrusHook err),
                { zapGlobal := some (builtLogger c env component)
                  klogLogger := some { zapLog := builtLogger c env component }
                  klogVerbosity := v
                  logrusReportCaller := true
                  logrusOutput := Output.Discard
                  logrusHooks := g.logrusHooks })
            | none =>
              (Except.ok { zapLog := builtLogger c env component },
                { zapGlobal := some (builtLogger c env component)
                  klogLogger := some { zapLog := builtLogger c env component }
                  klogVerbosity := v
                  logrusReportCaller := true
                  logrusOutput := Output.Discard
                  logrusHooks := g.logrusHooks ++ [builtLogger c env component] }) := by
  unfold NewLogger
  rw [if_neg h]
  unfold Config.Build builtLogger
  cases c.BuildError (newConfig c env) [{ Key := "component", Value := component }] with
  | some err => rfl
  | none => rfl

/-- The call returns the invalid-encoding error only for an invalid encoding. -/
theorem invalid_of_invalidLogEncoding (c : Collaborators) (env : Env) (component : String)
    (g : Globals) (encoding : String)
    (h : (NewLogger c env component g).1 = Except.error (Error.invalidLogEncoding encoding)) :
    loftLogEncoding env ≠ "json" ∧ loftLogEncoding env ≠ "console" := by
  by_contra hvalid
  rw [NewLogger_of_valid_encoding c env component g hvalid] at h
  cases hb : c.BuildError (newConfig c env) [{ Key := "component", Value := component }] with
  | some err => simp [hb] at h
  | none =>
    simp only [hb] at h
    cases hv : c.SetV (kubernetesVerbosityLevel env) with
    | error err => simp [hv] at h
    | ok v =>
      simp only [hv] at h
      cases hp : c.ParseError with
      | some err => simp [hp] at h
      | none =>
        simp only [hp] at h
        cases hh : c.NewZapHookError (builtLogger c env component) with
        | some err => simp [hh] at h
        | none => simp [hh] at h

/-- The call depends on the environment only through the encoding, the
configuration and the verbosity string. -/
theorem NewLogger_congr (c : Collaborators) (env env1 : Env) (component : String) (g : Globals)
    (henc : loftLogEncoding env = loftLogEncoding env1)
    (hconfig : newConfig c env = newConfig c env1)
    (hv : kubernetesVerbosityLevel env = kubernetesVerbosityLevel env1) :
    NewLogger c env component g = NewLogger c env1 component g := by
  unfold NewLogger
  rw [henc, hconfig, hv]

/-- Reading a variable other than the one that was unset. -/
theorem Getenv_unsetenv_of_ne (env : Env) (key k : String) (h : k ≠ key) :
    Getenv (unsetenv env key) k = Getenv env k := by
  simp [Getenv, unsetenv, h]

/-- Reading the variable that was unset. -/
theorem Getenv_unsetenv_self (env : Env) (key : String) :
    Getenv (unsetenv env key) key = "" := by
  simp [Getenv, unsetenv]

/-- Unsetting `LOFT_LOG_LEVEL` changes the configuration at most in its level. -/
theorem newConfig_unsetenv_level (c : Collaborators) (env : Env)
    (h : atomicLevel c env = atomicLevel c (unsetenv env "LOFT_LOG_LEVEL")) :
    newConfig c env = newConfig c (unsetenv env "LOFT_LOG_LEVEL") := by
  have h1 : Getenv (unsetenv env "LOFT_LOG_LEVEL") "DEVELOPMENT" = Getenv env "DEVELOPMENT" :=
    Getenv_unsetenv_of_ne env _ _ (by decide)
  have h2 : Getenv (unsetenv env "LOFT_LOG_LEVEL") "LOFTDEBUG" = Getenv env "LOFTDEBUG" :=
    Getenv_unsetenv_of_ne env _ _ (by decide)
  have h3 : Getenv (unsetenv env "LOFT_LOG_LEVEL") "LOFT_LOG_ENCODING" =
      Getenv env "LOFT_LOG_ENCODING" :=
    Getenv_unsetenv_of_ne env _ _ (by decide)
  have h4 : Getenv (unsetenv env "LOFT_LOG_LEVEL") "LOFT_LOG_FULL_CALLER_PATH" =
      Getenv env "LOFT_LOG_FULL_CALLER_PATH" :=
    Getenv_unsetenv_of_ne env _ _ (by decide)
  simp only [newConfig, loftLogEncoding, logFullCallerPath, h1, h2, h3, h4, h]

/-! ## Claims -/

/-- C1: `NewLogger` fails with the invalid-log-encoding error exactly when the
resolved encoding (`LOFT_LOG_ENCODING`, or `console` when it is empty) is neither
`json` nor `console`.  In that case, for every collaborator, every value of the
other variables and every state, the call returns that error for the resolved
encoding with the state untouched, and the text of the error ends with the
offending value. -/
theorem NewLogger_invalid_log_encoding (c : Collaborators) (env : Env) (component : String)
    (g : Globals) :
    ((∃ encoding, (NewLogger c env component g).1 =
        Except.error (Error.invalidLogEncoding encoding)) ↔
      (loftLogEncoding env ≠ "json" ∧ loftLogEncoding env ≠ "console")) ∧
    ((loftLogEncoding env ≠ "json" ∧ loftLogEncoding env ≠ "console") →
      NewLogger c env component g =
        (Except.error (Error.invalidLogEncoding (loftLogEncoding env)), g) ∧
      (Error.invalidLogEncoding (loftLogEncoding env)).message =
        "invalid log encoding: " ++ loftLogEncoding env) := by
  refine ⟨⟨?_, ?_⟩, ?_⟩
  · rintro ⟨encoding, h⟩
    exact invalid_of_invalidLogEncoding c env component g encoding h
  · intro h
    exact ⟨loftLogEncoding env, by rw [NewLogger_of_invalid_encoding c env component g h]⟩
  · intro h
    exact ⟨NewLogger_of_invalid_encoding c env component g h, rfl⟩

/-- Witness of C1: `LOFT_LOG_ENCODING=xml` with a verbosity klog would reject and
a debug level; the error cites `xml` and the state is the initial one. -/
theorem NewLogger_invalid_log_encoding_witness :
    NewLogger (libraries ("/work", none))
        (envOf [("LOFT_LOG_ENCODING", "xml"), ("KUBERNETES_VERBOSITY_LEVEL", "abc"),
          ("LOFT_LOG_LEVEL", "debug")]) "agent" initialGlobals =
      (Except.error (Error.invalidLogEncoding "xml"), initialGlobals) ∧
    (Error.invalidLogEncoding "xml").message = "invalid log encoding: xml" :=
  ⟨((NewLogger_invalid_log_encoding (libraries ("/work", none))
        (envOf [("LOFT_LOG_ENCODING", "xml"), ("KUBERNETES_VERBOSITY_LEVEL", "abc"),
          ("LOFT_LOG_LEVEL", "debug")]) "agent" initialGlobals).2 (by decide)).1, by decide⟩

/-- The caller formatter of the configuration, by the test of line 70. -/
theorem newConfig_EncodeCaller (c : Collaborators) (env : Env) :
    (newConfig c env).EncodeCaller =
      if logFullCallerPath env = "true" ∨ Getenv env "LOFTDEBUG" = "true" then
        CallerEncoder.trimPath (workingDirectoryPath c)
      else CallerEncoder.ShortCallerEncoder := by
  simp only [newConfig]
  split <;> split <;> rfl

/-- C6: when `LOFTDEBUG` is `true` the caller formatter installed is the full-path
one, which strips the working-directory path, whatever `LOFT_LOG_FULL_CALLER_PATH`
holds (unset and `false` included); when `LOFTDEBUG` is not `true` the formatter is
the full-path one if `LOFT_LOG_FULL_CALLER_PATH` is `true` and the short one
otherwise.  Every logger `NewLogger` returns carries that formatter. -/
theorem caller_path_mode (c : Collaborators) (env : Env) :
    (Getenv env "LOFTDEBUG" = "true" →
      (newConfig c env).EncodeCaller = CallerEncoder.trimPath (workingDirectoryPath c)) ∧
    (Getenv env "LOFTDEBUG" ≠ "true" →
      (Getenv env "LOFT_LOG_FULL_CALLER_PATH" = "true" →
        (newConfig c env).EncodeCaller = CallerEncoder.trimPath (workingDirectoryPath c)) ∧
      (Getenv env "LOFT_LOG_FULL_CALLER_PATH" ≠ "true" →
        (newConfig c env).EncodeCaller = CallerEncoder.ShortCallerEncoder)) ∧
    (∀ (component : String) (g g1 : Globals) (log : Logger),
      NewLogger c env component g = (Except.ok log, g1) →
        log.zapLog.config.EncodeCaller = (newConfig c env).EncodeCaller) := by
  refine ⟨?_, ?_, ?_⟩
  · intro hdebug
    rw [newConfig_EncodeCaller, if_pos (Or.inr hdebug)]
  · intro hdebug
    constructor
    · intro hfull
      have h : logFullCallerPath env = "true" := by
        simp only [logFullCallerPath, hfull, if_neg hdebug]
        decide
      rw [newConfig_EncodeCaller, if_pos (Or.inl h)]
    · intro hfull
      have h : logFullCallerPath env ≠ "true" := by
        simp only [logFullCallerPath, if_neg hdebug]
        split
        · decide
        · exact hfull
      rw [newConfig_EncodeCaller, if_neg (fun hor => hor.elim h hdebug)]
  · intro component g g1 log h
    rw [(NewLogger_ok c env component g g1 log h).1]
    rfl

/-- Witness of C6: `LOFTDEBUG=true` with `LOFT_LOG_FULL_CALLER_PATH=false` installs
the full-path formatter for the working directory `/work`. -/
theorem caller_path_mode_witness :
    (newConfig (libraries ("/work", none))
        (envOf [("LOFTDEBUG", "true"), ("LOFT_LOG_FULL_CALLER_PATH", "false")])).EncodeCaller =
      CallerEncoder.trimPath "/work/" :=
  (caller_path_mode (libraries ("/work", none))
    (envOf [("LOFTDEBUG", "true"), ("LOFT_LOG_FULL_CALLER_PATH", "false")])).1 (by decide)

/-- The level string is `debug` as soon as the verbosity variable is neither empty
nor `0` (lines 47-53). -/
theorem logLevel_of_verbosity (env : Env)
    (h1 : Getenv env "KUBERNETES_VERBOSITY_LEVEL" ≠ "")
    (h0 : Getenv env "KUBERNETES_VERBOSITY_LEVEL" ≠ "0") :
    logLevel env = "debug" ∧
    kubernetesVerbosityLevel env = Getenv env "KUBERNETES_VERBOSITY_LEVEL" := by
  simp [logLevel, kubernetesVerbosityLevel, levelSettings, h1, h0]

/-- The level and verbosity strings when the verbosity variable is empty or `0`
(lines 42-56). -/
theorem levelSettings_of_no_verbosity (env : Env)
    (h : Getenv env "KUBERNETES_VERBOSITY_LEVEL" = "" ∨
      Getenv env "KUBERNETES_VERBOSITY_LEVEL" = "0") :
    logLevel env =
      (if Getenv env "LOFT_LOG_LEVEL" = "" then "warn" else Getenv env "LOFT_LOG_LEVEL") ∧
    kubernetesVerbosityLevel env = (if logLevel env = "debug" then "1" else "0") := by
  rcases h with h | h <;>
    simp [logLevel, kubernetesVerbosityLevel, levelSettings, h]

/-- A positive integer string is neither empty nor `0`. -/
theorem isPositiveIntegerString_ne (v : String) (h : isPositiveIntegerString v = true) :
    v ≠ "" ∧ v ≠ "0" := by
  constructor
  · rintro rfl
    revert h
    decide
  · rintro rfl
    revert h
    decide

/-- C3: if `KUBERNETES_VERBOSITY_LEVEL` is a positive integer string then, for every
value of `LOFT_LOG_LEVEL` (set or unset, valid or not), the level string handed to
the parser is `debug` and the level of the configuration, and of every logger
`NewLogger` returns, is debug.  The parser is assumed to read the level names. -/
theorem level_debug_of_positive_verbosity (c : Collaborators) (env : Env) (v : String)
    (hparser : ParsesLevelNames c)
    (hv : env "KUBERNETES_VERBOSITY_LEVEL" = some v)
    (hpos : isPositiveIntegerString v = true) :
    logLevel env = "debug" ∧
    (newConfig c env).Level = Level.DebugLevel ∧
    (∀ (component : String) (g g1 : Globals) (log : Logger),
      NewLogger c env component g = (Except.ok log, g1) →
        log.zapLog.config.Level = Level.DebugLevel) := by
  have hget : Getenv env "KUBERNETES_VERBOSITY_LEVEL" = v := by
    simp [Getenv, hv]
  obtain ⟨hne, hn0⟩ := isPositiveIntegerString_ne v hpos
  have hlevel : logLevel env = "debug" :=
    (logLevel_of_verbosity env (by rw [hget]; exact hne) (by rw [hget]; exact hn0)).1
  have hconfig : (newConfig c env).Level = Level.DebugLevel := by
    rw [newConfig_Level, atomicLevel, hlevel]
    have := hparser Level.DebugLevel
    simp only [levelName] at this
    rw [this]
  refine ⟨hlevel, hconfig, ?_⟩
  intro component g g1 log h
  rw [(NewLogger_ok c env component g g1 log h).1]
  exact hconfig

/-- Witness of C3: verbosity `3` with the unparseable level `bogus`. -/
theorem level_debug_of_positive_verbosity_witness :
    logLevel (envOf [("KUBERNETES_VERBOSITY_LEVEL", "3"), ("LOFT_LOG_LEVEL", "bogus")]) =
      "debug" ∧
    (newConfig (libraries ("/work", none))
      (envOf [("KUBERNETES_VERBOSITY_LEVEL", "3"), ("LOFT_LOG_LEVEL", "bogus")])).Level =
      Level.DebugLevel :=
  have h := level_debug_of_positive_verbosity (libraries ("/work", none))
    (envOf [("KUBERNETES_VERBOSITY_LEVEL", "3"), ("LOFT_LOG_LEVEL", "bogus")]) "3"
    (libraries_parsesLevelNames ("/work", none)) (by decide) (by decide)
  ⟨h.1, h.2.1⟩

/-- C4: if `LOFT_LOG_LEVEL` is `debug` and `KUBERNETES_VERBOSITY_LEVEL` is unset or
`0`, the level of the configuration is debug and the verbosity handed to the `v`
flag of klog is `1`; after a successful call the logger has level debug and the
verbosity of klog is what the flag stores for `1`.  The parser is assumed to read
the level names. -/
theorem debug_level_forces_verbosity (c : Collaborators) (env : Env)
    (hparser : ParsesLevelNames c)
    (hlevel : env "LOFT_LOG_LEVEL" = some "debug")
    (hv : env "KUBERNETES_VERBOSITY_LEVEL" = none ∨
      env "KUBERNETES_VERBOSITY_LEVEL" = some "0") :
    (newConfig c env).Level = Level.DebugLevel ∧
    kubernetesVerbosityLevel env = "1" ∧
    (∀ (component : String) (g g1 : Globals) (log : Logger),
      NewLogger c env component g = (Except.ok log, g1) →
        log.zapLog.config.Level = Level.DebugLevel ∧
        c.SetV "1" = Except.ok g1.klogVerbosity) := by
  have hgetl : Getenv env "LOFT_LOG_LEVEL" = "debug" := by
    simp [Getenv, hlevel]
  have hgetv : Getenv env "KUBERNETES_VERBOSITY_LEVEL" = "" ∨
      Getenv env "KUBERNETES_VERBOSITY_LEVEL" = "0" := by
    rcases hv with hv | hv
    · left
      simp [Getenv, hv]
    · right
      simp [Getenv, hv]
  obtain ⟨hl, hk⟩ := levelSettings_of_no_verbosity env hgetv
  have hl1 : logLevel env = "debug" := by
    rw [hl, hgetl]
    decide
  have hk1 : kubernetesVerbosityLevel env = "1" := by
    rw [hk, if_pos hl1]
  have hconfig : (newConfig c env).Level = Level.DebugLevel := by
    rw [newConfig_Level, atomicLevel, hl1]
    have := hparser Level.DebugLevel
    simp only [levelName] at this
    rw [this]
  refine ⟨hconfig, hk1, ?_⟩
  intro component g g1 log h
  obtain ⟨hlog, _, hset, _⟩ := NewLogger_ok c env component g g1 log h
  rw [hk1] at hset
  rw [hlog]
  exact ⟨hconfig, hset⟩

/-- Witness of C4: `LOFT_LOG_LEVEL=debug` alone, with the reference libraries; the
call succeeds and klog ends with verbosity 1. -/
theorem debug_level_forces_verbosity_witness :
    (newConfig (libraries ("/work", none)) (envOf [("LOFT_LOG_LEVEL", "debug")])).Level =
      Level.DebugLevel ∧
    kubernetesVerbosityLevel (envOf [("LOFT_LOG_LEVEL", "debug")]) = "1" ∧
    (NewLogger (libraries ("/work", none)) (envOf [("LOFT_LOG_LEVEL", "debug")]) "agent"
      initialGlobals).2.klogVerbosity = 1 :=
  have h := debug_level_forces_verbosity (libraries ("/work", none))
    (envOf [("LOFT_LOG_LEVEL", "debug")]) (libraries_parsesLevelNames ("/work", none))
    (by decide) (Or.inl (by decide))
  ⟨h.1, h.2.1, by decide⟩

/-- C10: with the six documented variables unset, for every component, the
encoding check passes (the call never returns the invalid-encoding error) and the
configuration is the production preset with encoding `console`, the short caller
formatter and level warn; the verbosity handed to klog is `0`.  Every logger the
call returns is built from that configuration with exactly the field `component`,
and klog then holds the verbosity its flag stores for `0`; when the collaborators
succeed the call does return that logger.  The parser is assumed to read the level
names. -/
theorem NewLogger_defaults (c : Collaborators) (env : Env) (component : String) (g : Globals)
    (hparser : ParsesLevelNames c)
    (hunset : ∀ key ∈ documentedVariables, env key = none) :
    (∀ encoding, (NewLogger c env component g).1 ≠
      Except.error (Error.invalidLogEncoding encoding)) ∧
    newConfig c env =
      { Development := false
        Encoding := "console"
        EncodeLevel := LevelEncoder.LowercaseLevelEncoder
        EncodeCaller := CallerEncoder.ShortCallerEncoder
        Level := Level.WarnLevel } ∧
    kubernetesVerbosityLevel env = "0" ∧
    (∀ (g1 : Globals) (log : Logger), NewLogger c env component g = (Except.ok log, g1) →
      log.zapLog.config = newConfig c env ∧
      log.zapLog.fields = [{ Key := "component", Value := component }] ∧
      c.SetV "0" = Except.ok g1.klogVerbosity) ∧
    (∀ v : Int, c.BuildError (newConfig c env) [{ Key := "component", Value := component }] = none →
      c.SetV "0" = Except.ok v → c.ParseError = none →
      c.NewZapHookError
        { config := newConfig c env, fields := [{ Key := "component", Value := component }] } =
        none →
      (NewLogger c env component g).1 =
        Except.ok { zapLog :=
          { config := newConfig c env, fields := [{ Key := "component", Value := component }] } } ∧
      (NewLogger c env component g).2.klogVerbosity = v) := by
  have hdev : Getenv env "DEVELOPMENT" = "" := by
    simp [Getenv, hunset "DEVELOPMENT" (by decide)]
  have hdebug : Getenv env "LOFTDEBUG" = "" := by
    simp [Getenv, hunset "LOFTDEBUG" (by decide)]
  have henc : Getenv env "LOFT_LOG_ENCODING" = "" := by
    simp [Getenv, hunset "LOFT_LOG_ENCODING" (by decide)]
  have hfull : Getenv env "LOFT_LOG_FULL_CALLER_PATH" = "" := by
    simp [Getenv, hunset "LOFT_LOG_FULL_CALLER_PATH" (by decide)]
  have hlevel : Getenv env "LOFT_LOG_LEVEL" = "" := by
    simp [Getenv, hunset "LOFT_LOG_LEVEL" (by decide)]
  have hverb : Getenv env "KUBERNETES_VERBOSITY_LEVEL" = "" := by
    simp [Getenv, hunset "KUBERNETES_VERBOSITY_LEVEL" (by decide)]
  have hencoding : loftLogEncoding env = "console" := by
    simp [loftLogEncoding, henc]
  have hvalid : ¬ (loftLogEncoding env ≠ "json" ∧ loftLogEncoding env ≠ "console") :=
    fun h => h.2 hencoding
  obtain ⟨hl, hk⟩ := levelSettings_of_no_verbosity env (Or.inl hverb)
  have hl1 : logLevel env = "warn" := by
    rw [hl, hlevel]
    decide
  have hk1 : kubernetesVerbosityLevel env = "0" := by
    rw [hk, hl1]
    decide
  have hatomic : atomicLevel c env = Level.WarnLevel := by
    rw [atomicLevel, hl1]
    have := hparser Level.WarnLevel
    simp only [levelName] at this
    rw [this]
  have hconfig : newConfig c env =
      { Development := false
        Encoding := "console"
        EncodeLevel := LevelEncoder.LowercaseLevelEncoder
        EncodeCaller := CallerEncoder.ShortCallerEncoder
        Level := Level.WarnLevel } := by
    simp [newConfig, NewProductionConfig, hdev, hdebug, hencoding, hatomic, logFullCallerPath,
      hfull]
  refine ⟨?_, hconfig, hk1, ?_, ?_⟩
  · intro encoding h
    exact hvalid (invalid_of_invalidLogEncoding c env component g encoding h)
  · intro g1 log h
    obtain ⟨hlog, _, hset, _⟩ := NewLogger_ok c env component g g1 log h
    rw [hk1] at hset
    rw [hlog]
    exact ⟨rfl, rfl, hset⟩
  · intro v hb hset hp hh
    have hh1 : c.NewZapHookError (builtLogger c env component) = none := hh
    rw [NewLogger_of_valid_encoding c env component g hvalid, hb, hk1, hset, hp, hh1]
    exact ⟨rfl, rfl⟩

/-- Witness of C10: the empty environment with the reference libraries and the
component `agent`; the call succeeds from the initial state. -/
theorem NewLogger_defaults_witness :
    newConfig (libraries ("/work", none)) (envOf []) =
      { Development := false
        Encoding := "console"
        EncodeLevel := LevelEncoder.LowercaseLevelEncoder
        EncodeCaller := CallerEncoder.ShortCallerEncoder
        Level := Level.WarnLevel } ∧
    NewLogger (libraries ("/work", none)) (envOf []) "agent" initialGlobals =
      (Except.ok { zapLog := builtLogger (libraries ("/work", none)) (envOf []) "agent" },
        { zapGlobal := some (builtLogger (libraries ("/work", none)) (envOf []) "agent")
          klogLogger := some { zapLog := builtLogger (libraries ("/work", none)) (envOf []) "agent" }
          klogVerbosity := 0
          logrusReportCaller := true
          logrusOutput := Output.Discard
          logrusHooks := [builtLogger (libraries ("/work", none)) (envOf []) "agent"] }) :=
  ⟨(NewLogger_defaults (libraries ("/work", none)) (envOf []) "agent" initialGlobals
      (libraries_parsesLevelNames ("/work", none)) (fun _ _ => rfl)).2.1, by rfl⟩

/-- Counterexample to C5 as stated: with `KUBERNETES_VERBOSITY_LEVEL=3` the
unparseable level `bogus` does not give level warn; the call succeeds with a logger
of level debug. -/
theorem unparseable_level_overridden_by_verbosity :
    zapParseAtomicLevel "bogus" = Except.error "unrecognized level: bogus" ∧
    (newConfig (libraries ("/work", none))
      (envOf [("LOFT_LOG_LEVEL", "bogus"), ("KUBERNETES_VERBOSITY_LEVEL", "3")])).Level =
      Level.DebugLevel ∧
    (newConfig (libraries ("/work", none))
      (envOf [("LOFT_LOG_LEVEL", "bogus"), ("KUBERNETES_VERBOSITY_LEVEL", "3")])).Level ≠
      Level.WarnLevel ∧
    (NewLogger (libraries ("/work", none))
      (envOf [("LOFT_LOG_LEVEL", "bogus"), ("KUBERNETES_VERBOSITY_LEVEL", "3")]) "agent"
      initialGlobals).1 =
      Except.ok { zapLog :=
        { config :=
            { Development := false
              Encoding := "console"
              EncodeLevel := LevelEncoder.LowercaseLevelEncoder
              EncodeCaller := CallerEncoder.ShortCallerEncoder
              Level := Level.DebugLevel }
          fields := [{ Key := "component", Value := "agent" }] } } := by
  refine ⟨by rfl, by decide, by decide, by rfl⟩

/-- C5, amended: if the parser does not accept the value of `LOFT_LOG_LEVEL` and
`KUBERNETES_VERBOSITY_LEVEL` is unset or `0`, the level of the configuration, and
of every logger `NewLogger` returns, is warn, and the call has the result and the
final state it has with `LOFT_LOG_LEVEL` unset: it returns no error on account of
the value.  The parser is assumed to read the level names. -/
theorem unparseable_level_falls_back (c : Collaborators) (env : Env) (v : String)
    (hparser : ParsesLevelNames c)
    (hlevel : env "LOFT_LOG_LEVEL" = some v)
    (hrej : ∃ err, c.ParseAtomicLevel v = Except.error err)
    (hv : env "KUBERNETES_VERBOSITY_LEVEL" = none ∨
      env "KUBERNETES_VERBOSITY_LEVEL" = some "0") :
    (newConfig c env).Level = Level.WarnLevel ∧
    (∀ (component : String) (g : Globals),
      NewLogger c env component g =
        NewLogger c (unsetenv env "LOFT_LOG_LEVEL") component g) ∧
    (∀ (component : String) (g g1 : Globals) (log : Logger),
      NewLogger c env component g = (Except.ok log, g1) →
        log.zapLog.config.Level = Level.WarnLevel) := by
  obtain ⟨err, hrej⟩ := hrej
  have hwarn : c.ParseAtomicLevel "warn" = Except.ok Level.WarnLevel := hparser Level.WarnLevel
  have hndebug : v ≠ "debug" := by
    rintro rfl
    have := hparser Level.DebugLevel
    simp only [levelName] at this
    rw [this] at hrej
    cases hrej
  have hgetl : Getenv env "LOFT_LOG_LEVEL" = v := by
    simp [Getenv, hlevel]
  have hgetv : Getenv env "KUBERNETES_VERBOSITY_LEVEL" = "" ∨
      Getenv env "KUBERNETES_VERBOSITY_LEVEL" = "0" := by
    rcases hv with hv | hv
    · left
      simp [Getenv, hv]
    · right
      simp [Getenv, hv]
  -- the environment as given
  obtain ⟨hl, hk⟩ := levelSettings_of_no_verbosity env hgetv
  rw [hgetl] at hl
  have hl_ne : logLevel env ≠ "debug" := by
    rw [hl]
    split
    · decide
    · exact hndebug
  have hk0 : kubernetesVerbosityLevel env = "0" := by
    rw [hk, if_neg hl_ne]
  have hatomic : atomicLevel c env = Level.WarnLevel := by
    rw [atomicLevel, hl]
    split_ifs with hempty
    · rw [hwarn]
    · rw [hrej]
  -- the environment without the variable
  have hgetl1 : Getenv (unsetenv env "LOFT_LOG_LEVEL") "LOFT_LOG_LEVEL" = "" :=
    Getenv_unsetenv_self env _
  have hgetv1 : Getenv (unsetenv env "LOFT_LOG_LEVEL") "KUBERNETES_VERBOSITY_LEVEL" =
      Getenv env "KUBERNETES_VERBOSITY_LEVEL" :=
    Getenv_unsetenv_of_ne env _ _ (by decide)
  obtain ⟨hl1, hk1⟩ := levelSettings_of_no_verbosity (unsetenv env "LOFT_LOG_LEVEL")
    (by rw [hgetv1]; exact hgetv)
  rw [hgetl1] at hl1
  have hl1w : logLevel (unsetenv env "LOFT_LOG_LEVEL") = "warn" := by
    rw [hl1]
    decide
  have hk10 : kubernetesVerbosityLevel (unsetenv env "LOFT_LOG_LEVEL") = "0" := by
    rw [hk1, hl1w]
    decide
  have hatomic1 : atomicLevel c (unsetenv env "LOFT_LOG_LEVEL") = Level.WarnLevel := by
    rw [atomicLevel, hl1w, hwarn]
  have hconfig : (newConfig c env).Level = Level.WarnLevel := by
    rw [newConfig_Level, hatomic]
  refine ⟨hconfig, ?_, ?_⟩
  · intro component g
    apply NewLogger_congr
    · simp only [loftLogEncoding]
      rw [Getenv_unsetenv_of_ne env _ _ (by decide)]
    · exact newConfig_unsetenv_level c env (by rw [hatomic, hatomic1])
    · rw [hk0, hk10]
  · intro component g g1 log h
    rw [(NewLogger_ok c env component g g1 log h).1]
    exact hconfig

/-- Witness of C5, amended: the unparseable level `bogus`, the verbosity unset. -/
theorem unparseable_level_falls_back_witness :
    (newConfig (libraries ("/work", none)) (envOf [("LOFT_LOG_LEVEL", "bogus")])).Level =
      Level.WarnLevel :=
  (unparseable_level_falls_back (libraries ("/work", none))
    (envOf [("LOFT_LOG_LEVEL", "bogus")]) "bogus"
    (libraries_parsesLevelNames ("/work", none)) (by decide) ⟨_, rfl⟩
    (Or.inl (by decide))).1

/-- Counterexample to C7 as stated: with `KUBERNETES_VERBOSITY_LEVEL=abc` klog
rejects the verbosity and `NewLogger` returns an error, yet zap's global logger has
been replaced by the new logger and the logger of klog has been cleared. -/
theorem NewLogger_error_after_installation :
    (NewLogger (libraries ("/work", none)) (envOf [("KUBERNETES_VERBOSITY_LEVEL", "abc")])
      "agent" earlierGlobals).1 =
      Except.error (Error.failedToSetKlogVerbosityLevel "invalid syntax") ∧
    (NewLogger (libraries ("/work", none)) (envOf [("KUBERNETES_VERBOSITY_LEVEL", "abc")])
      "agent" earlierGlobals).2 ≠ earlierGlobals ∧
    (NewLogger (libraries ("/work", none)) (envOf [("KUBERNETES_VERBOSITY_LEVEL", "abc")])
      "agent" earlierGlobals).2.zapGlobal =
      some (builtLogger (libraries ("/work", none))
        (envOf [("KUBERNETES_VERBOSITY_LEVEL", "abc")]) "agent") ∧
    earlierGlobals.zapGlobal = some earlierLogger ∧
    (NewLogger (libraries ("/work", none)) (envOf [("KUBERNETES_VERBOSITY_LEVEL", "abc")])
      "agent" earlierGlobals).2.klogLogger = none ∧
    earlierGlobals.klogLogger = some { zapLog := earlierLogger } := by
  refine ⟨by rfl, by decide, by decide, by decide, by decide, by decide⟩

/-- C7, amended: when `NewLogger` returns the invalid-encoding error or the build
error, the process-wide state is what it was before the call.  When it returns a
later error, what was installed before the failing step stays: after a rejected
verbosity zap's global logger is the new logger and the logger of klog is
cleared; after a flag-parse failure the verbosity of klog is set as well; after a
hook failure zap and klog hold the new logger, klog its verbosity, logrus reports
callers and discards its output, and only the hooks of logrus are as before. -/
theorem NewLogger_error_state (c : Collaborators) (env : Env) (component : String)
    (g : Globals) :
    (∀ encoding, (NewLogger c env component g).1 =
        Except.error (Error.invalidLogEncoding encoding) →
      (NewLogger c env component g).2 = g) ∧
    (∀ err, (NewLogger c env component g).1 =
        Except.error (Error.failedToBuildZapLogger err) →
      (NewLogger c env component g).2 = g) ∧
    (∀ err, (NewLogger c env component g).1 =
        Except.error (Error.failedToSetKlogVerbosityLevel err) →
      (NewLogger c env component g).2 =
        { g with zapGlobal := some (builtLogger c env component), klogLogger := none }) ∧
    (∀ err, (NewLogger c env component g).1 =
        Except.error (Error.failedToParseKlogFlags err) →
      ∃ v, c.SetV (kubernetesVerbosityLevel env) = Except.ok v ∧
        (NewLogger c env component g).2 =
          { g with zapGlobal := some (builtLogger c env component), klogLogger := none,
                   klogVerbosity := v }) ∧
    (∀ err, (NewLogger c env component g).1 =
        Except.error (Error.failedToCreateLogrusHook err) →
      ∃ v, c.SetV (kubernetesVerbosityLevel env) = Except.ok v ∧
        (NewLogger c env component g).2 =
          { zapGlobal := some (builtLogger c env component)
            klogLogger := some { zapLog := builtLogger c env component }
            klogVerbosity := v
            logrusReportCaller := true
            logrusOutput := Output.Discard
            logrusHooks := g.logrusHooks }) := by
  by_cases hvalid : loftLogEncoding env ≠ "json" ∧ loftLogEncoding env ≠ "console"
  · rw [NewLogger_of_invalid_encoding c env component g hvalid]
    simp
  · rw [NewLogger_of_valid_encoding c env component g hvalid]
    cases hb : c.BuildError (newConfig c env) [{ Key := "component", Value := component }] with
    | some err => simp
    | none =>
      cases hv : c.SetV (kubernetesVerbosityLevel env) with
      | error err => simp
      | ok v =>
        cases hp : c.ParseError with
        | some err => simp
        | none =>
          cases hh : c.NewZapHookError (builtLogger c env component) with
          | some err => simp
          | none => simp

/-- Witness of C7, amended: the state after the rejected verbosity `abc`. -/
theorem NewLogger_error_state_witness :
    (NewLogger (libraries ("/work", none)) (envOf [("KUBERNETES_VERBOSITY_LEVEL", "abc")])
      "agent" earlierGlobals).2 =
      { earlierGlobals with
        zapGlobal := some (builtLogger (libraries ("/work", none))
          (envOf [("KUBERNETES_VERBOSITY_LEVEL", "abc")]) "agent")
        klogLogger := none } :=
  (NewLogger_error_state (libraries ("/work", none))
    (envOf [("KUBERNETES_VERBOSITY_LEVEL", "abc")]) "agent" earlierGlobals).2.2.1
    "invalid syntax" (by rfl)

/-- C2 at its failing inputs.  With `LOFT_LOG_LEVEL=DEBUG` the level string is not
`debug`, so the verbosity stays `0`, while zap reads `DEBUG` as the debug level: the
call succeeds with a logger of level debug and klog at verbosity 0.  With
`KUBERNETES_VERBOSITY_LEVEL=00` the level is forced to debug and klog stores the
verbosity 0. -/
theorem debug_level_with_zero_verbosity :
    (logLevel (envOf [("LOFT_LOG_LEVEL", "DEBUG")]) = "DEBUG" ∧
      kubernetesVerbosityLevel (envOf [("LOFT_LOG_LEVEL", "DEBUG")]) = "0" ∧
      (NewLogger (libraries ("/work", none)) (envOf [("LOFT_LOG_LEVEL", "DEBUG")]) "agent"
        initialGlobals).1 =
        Except.ok { zapLog :=
          { config :=
              { Development := false
                Encoding := "console"
                EncodeLevel := LevelEncoder.LowercaseLevelEncoder
                EncodeCaller := CallerEncoder.ShortCallerEncoder
                Level := Level.DebugLevel }
            fields := [{ Key := "component", Value := "agent" }] } } ∧
      (NewLogger (libraries ("/work", none)) (envOf [("LOFT_LOG_LEVEL", "DEBUG")]) "agent"
        initialGlobals).2.klogVerbosity = 0) ∧
    (logLevel (envOf [("KUBERNETES_VERBOSITY_LEVEL", "00")]) = "debug" ∧
      kubernetesVerbosityLevel (envOf [("KUBERNETES_VERBOSITY_LEVEL", "00")]) = "00" ∧
      (NewLogger (libraries ("/work", none)) (envOf [("KUBERNETES_VERBOSITY_LEVEL", "00")])
        "agent" initialGlobals).1 =
        Except.ok { zapLog :=
          { config :=
              { Development := false
                Encoding := "console"
                EncodeLevel := LevelEncoder.LowercaseLevelEncoder
                EncodeCaller := CallerEncoder.ShortCallerEncoder
                Level := Level.DebugLevel }
            fields := [{ Key := "component", Value := "agent" }] } } ∧
      (NewLogger (libraries ("/work", none)) (envOf [("KUBERNETES_VERBOSITY_LEVEL", "00")])
        "agent" initialGlobals).2.klogVerbosity = 0) := by
  refine ⟨⟨by decide, by decide, by rfl, by decide⟩, by decide, by decide, by rfl, by decide⟩

/-- The direction of C2 that holds: a positive verbosity stored by klog comes with
the debug level, for a parser that reads the level names and a flag that stores 0
for `0`. -/
theorem level_debug_of_stored_verbosity_pos (c : Collaborators) (env : Env) (n : Int)
    (hparser : ParsesLevelNames c) (hzero : c.SetV "0" = Except.ok 0)
    (hset : c.SetV (kubernetesVerbosityLevel env) = Except.ok n) (hpos : 0 < n) :
    (newConfig c env).Level = Level.DebugLevel := by
  have hdebug : c.ParseAtomicLevel "debug" = Except.ok Level.DebugLevel :=
    hparser Level.DebugLevel
  have hlevel : logLevel env = "debug" := by
    by_cases h0 : Getenv env "KUBERNETES_VERBOSITY_LEVEL" = "" ∨
        Getenv env "KUBERNETES_VERBOSITY_LEVEL" = "0"
    · obtain ⟨_, hk⟩ := levelSettings_of_no_verbosity env h0
      by_contra hne
      rw [hk, if_neg hne, hzero] at hset
      cases hset
      exact absurd hpos (by decide)
    · exact (logLevel_of_verbosity env (fun h => h0 (Or.inl h)) (fun h => h0 (Or.inr h))).1
  rw [newConfig_Level, atomicLevel, hlevel, hdebug]

/-- The prefix removed by the full-path formatter is never empty: it ends with the
separator appended at line 21, whatever `os.Getwd` returns. -/
theorem workingDirectoryPath_ne_empty (c : Collaborators) : workingDirectoryPath c ≠ "" := by
  intro h
  have hlen := congrArg String.length h
  simp only [workingDirectoryPath, String.length_append] at hlen
  have hsep : "/".length = 1 := by decide
  have hempty : "".length = 0 := by decide
  omega

/-! ## The full-path formatter in general -/

/-- Removing a prefix that is there leaves the rest. -/
theorem TrimPrefix_append (pre rest : String) : TrimPrefix (pre ++ rest) pre = rest := by
  have h : HasPrefix (pre ++ rest) pre = true := by
    simp [HasPrefix, String.data_append]
  simp [TrimPrefix, h, String.data_append]

/-- Removing a prefix that is not there changes nothing. -/
theorem TrimPrefix_of_not_hasPrefix (s pre : String) (h : HasPrefix s pre = false) :
    TrimPrefix s pre = s := by
  simp [TrimPrefix, h]

/-- A list ending with `ch` that is a prefix of `front ++ back`, where `ch` does not
occur in `back`, is a prefix of `front`. -/
theorem prefix_of_prefix_append (p front back : List Char) (ch : Char)
    (hback : ch ∉ back) (h : (p ++ [ch]) <+: front ++ back) : (p ++ [ch]) <+: front := by
  rcases List.prefix_or_prefix_of_prefix h (List.prefix_append front back) with h1 | h1
  · exact h1
  · obtain ⟨t, ht⟩ := h1
    rw [← ht] at h
    have ht2 : t <+: back := (List.prefix_append_right_inj front).1 h
    cases t with
    | nil =>
      rw [List.append_nil] at ht
      rw [ht]
    | cons a t =>
      exfalso
      apply hback
      apply ht2.subset
      have hlast : (a :: t).getLast? = some ch := by
        rw [← List.getLast?_append_of_ne_nil front (List.cons_ne_nil a t), ht,
          List.getLast?_concat]
      exact List.mem_of_getLast?_eq_some hlast

/-- No decimal digit is the separator. -/
theorem digitChar_ne_separator (d : Nat) (h : d < 10) : Nat.digitChar d ≠ '/' := by
  interval_cases d <;> decide

/-- The digits of a number contain no separator. -/
theorem toDigitsCore_no_separator (fuel : Nat) : ∀ (n : Nat) (ds : List Char),
    '/' ∉ ds → '/' ∉ Nat.toDigitsCore 10 fuel n ds := by
  induction fuel with
  | zero =>
    intro n ds h
    simpa [Nat.toDigitsCore] using h
  | succ fuel ih =>
    intro n ds h
    have hd : '/' ∉ Nat.digitChar (n % 10) :: ds := by
      intro hmem
      rcases List.mem_cons.1 hmem with h1 | h1
      · exact digitChar_ne_separator (n % 10) (Nat.mod_lt _ (by decide)) h1.symm
      · exact h h1
    simp only [Nat.toDigitsCore]
    split
    · exact hd
    · exact ih _ _ hd

/-- A line number is written without separator. -/
theorem line_no_separator (line : Int) : '/' ∉ (toString line).data := by
  have hnat : ∀ n : Nat, '/' ∉ (Nat.repr n).data := by
    intro n
    simp only [Nat.repr, Nat.toDigits, List.asString]
    exact toDigitsCore_no_separator _ _ _ (by simp)
  cases line with
  | ofNat m => exact hnat m
  | negSucc m =>
    show '/' ∉ ("-" ++ Nat.repr (Nat.succ m)).data
    rw [String.data_append]
    intro hmem
    rcases List.mem_append.1 hmem with h1 | h1
    · revert h1
      decide
    · exact hnat _ h1

/-- A call-site whose file is `w`, a separator and `rel` is rendered by the full-path
formatter for the directory `w` as `rel:line`. -/
theorem encodeFullCaller_under (w rel : String) (line : Int) :
    encodeFullCaller (w ++ "/") { Defined := true, File := w ++ "/" ++ rel, Line := line } =
      rel ++ ":" ++ toString line := by
  simp only [encodeFullCaller, EntryCaller.String, EntryCaller.FullPath, Bool.not_true,
    Bool.false_eq_true, if_false]
  rw [String.append_assoc, String.append_assoc, TrimPrefix_append, String.append_assoc]

/-- A caller whose file does not start with `w` and a separator is rendered by the
full-path formatter for the directory `w` in full, unchanged. -/
theorem encodeFullCaller_not_under (w : String) (caller : EntryCaller)
    (h : HasPrefix caller.File (w ++ "/") = false) :
    encodeFullCaller (w ++ "/") caller = caller.String := by
  apply TrimPrefix_of_not_hasPrefix
  rw [Bool.eq_false_iff]
  intro hpre
  simp only [HasPrefix, String.data_append, List.isPrefixOf_iff_prefix] at hpre
  have h1 : ¬ (w.data ++ ['/']) <+: caller.File.data := by
    intro hfile
    have : HasPrefix caller.File (w ++ "/") = true := by
      simp only [HasPrefix, String.data_append, List.isPrefixOf_iff_prefix]
      exact hfile
    rw [h] at this
    cases this
  simp only [EntryCaller.String, EntryCaller.FullPath] at hpre
  cases hdef : caller.Defined with
  | false =>
    simp only [hdef, Bool.not_false, if_true] at hpre
    have hmem : '/' ∈ ("undefined" : String).data := hpre.subset (by simp)
    revert hmem
    decide
  | true =>
    simp only [hdef, Bool.not_true, Bool.false_eq_true, if_false, String.data_append] at hpre
    rw [List.append_assoc] at hpre
    have hback : '/' ∉ (":" : String).data ++ (toString caller.Line).data := by
      intro hmem
      rcases List.mem_append.1 hmem with h1 | h1
      · revert h1
        decide
      · exact line_no_separator _ h1
    exact h1 (prefix_of_prefix_append _ _ _ _ hback hpre)

/-- C8 at its failing input.  When `os.Getwd` fails (it returns the empty
directory with its error) and `LOFTDEBUG=true`, the call succeeds and installs
the full-path formatter with the prefix `/`, not the empty prefix: the call-site
`/src/app/main.go:42` is rendered `src/app/main.go:42`, its first character
removed. -/
theorem caller_prefix_when_getwd_fails :
    workingDirectoryPath (libraries ("", some "getwd: no such file or directory")) = "/" ∧
    (NewLogger (libraries ("", some "getwd: no such file or directory"))
      (envOf [("LOFTDEBUG", "true")]) "agent" initialGlobals).1 =
      Except.ok { zapLog :=
        { config :=
            { Development := false
              Encoding := "console"
              EncodeLevel := LevelEncoder.LowercaseLevelEncoder
              EncodeCaller := CallerEncoder.trimPath "/"
              Level := Level.WarnLevel }
          fields := [{ Key := "component", Value := "agent" }] } } ∧
    EntryCaller.String { Defined := true, File := "/src/app/main.go", Line := 42 } =
      "/src/app/main.go:42" ∧
    encodeFullCaller "/" { Defined := true, File := "/src/app/main.go", Line := 42 } =
      "src/app/main.go:42" := by
  refine ⟨by decide, by rfl, by decide, by decide⟩

/-- C9 at its failing input.  With the working directory `/` and `LOFTDEBUG=true`
the prefix of the full-path formatter is `//`: the call-site `/src/app/main.go:42`,
whose file is under `/` with relative path `src/app/main.go`, is rendered
unchanged, with its leading separator. -/
theorem caller_path_in_root_directory :
    workingDirectoryPath (libraries ("/", none)) = "//" ∧
    (newConfig (libraries ("/", none)) (envOf [("LOFTDEBUG", "true")])).EncodeCaller =
      CallerEncoder.trimPath "//" ∧
    encodeFullCaller "//" { Defined := true, File := "/src/app/main.go", Line := 42 } =
      "/src/app/main.go:42" ∧
    encodeFullCaller "//" { Defined := true, File := "/src/app/main.go", Line := 42 } ≠
      "src/app/main.go:42" := by
  refine ⟨by decide, by decide, by decide, by decide⟩


end logr
